import Mathlib

/-!
Verification of the workflow-orchestration core of the serial-job-applier
repository: the form-response resolver, the paginated job-search graph, the
job-application loop, the Easy-Apply submit step and the authentication graph,
shallowly embedded from the Python sources under
`src/linkedin_mcp/linkedin/`.

Python strings are modelled as `List Char` (written `Str` below); Python's
substring test `a in b` is the contiguous-sublist test, and `str.lower` is
modelled by `Char.toLower` character-wise (faithful on the ASCII data these
functions receive).
-/

namespace JobApplier

/-- Python strings, modelled as lists of characters. -/
abbrev Str := List Char

/-- `str.lower()` applied character-wise. -/
def pyLower (s : Str) : Str := s.map Char.toLower

/-- Python's `a in b` on strings: `a` occurs as a contiguous substring of `b`. -/
def pySubstr (a : Str) : Str → Bool
  | [] => a.isEmpty
  | x :: xs => a.isPrefixOf (x :: xs) || pySubstr a xs

namespace EasyApplyAgent

/-- First loop of `_find_best_option_match`: scan `options` in order and
return the first option whose lowercasing equals the lowercased answer
(`easy_apply_agent.py`, the "Direct match" loop). -/
def exactMatchFirst (al : Str) : List Str → Option Str
  | [] => none
  | o :: rest => if al = pyLower o then some o else exactMatchFirst al rest

/-- Second loop of `_find_best_option_match`: scan `options` in order and
return the first option such that `answer_lower in option.lower()` or
`option.lower() in answer_lower` (the "Partial match" loop). -/
def substrMatchFirst (al : Str) : List Str → Option Str
  | [] => none
  | o :: rest =>
      if pySubstr al (pyLower o) || pySubstr (pyLower o) al then some o
      else substrMatchFirst al rest

/-- `EasyApplyAgent._find_best_option_match(answer, options)` from
`src/linkedin_mcp/linkedin/agents/easy_apply_agent.py`: empty options give
`""`; otherwise the direct-match loop, then the partial-match loop, then
`options[0]` as fallback. -/
def find_best_option_match (answer : Str) (options : List Str) : Str :=
  if options.isEmpty then []
  else
    match exactMatchFirst (pyLower answer) options with
    | some o => o
    | none =>
        match substrMatchFirst (pyLower answer) options with
        | some o => o
        | none => options.headD []

/-- Modelled from the spec's words (§4.5), for comparison with the source
function: 1. case-insensitive exact match, 2. case-insensitive substring
match either direction (first option in list order), 3. first option if the
list is non-empty, 4. empty text if the list is empty. -/
def resolveSpec (answer : Str) (options : List Str) : Str :=
  if options.isEmpty then []
  else
    match options.find? (fun o => pyLower answer = pyLower o) with
    | some o => o
    | none =>
        match options.find?
            (fun o => pySubstr (pyLower o) (pyLower answer)
                   || pySubstr (pyLower answer) (pyLower o)) with
        | some o => o
        | none => options.headD []

theorem exactMatchFirst_eq_find? (al : Str) (l : List Str) :
    exactMatchFirst al l = l.find? (fun o => al = pyLower o) := by
  induction l with
  | nil => rfl
  | cons o rest ih =>
      by_cases h : al = pyLower o
      · simp [exactMatchFirst, List.find?, h]
      · simp [exactMatchFirst, List.find?, h, ih]

theorem substrMatchFirst_eq_find? (al : Str) (l : List Str) :
    substrMatchFirst al l
      = l.find? (fun o => pySubstr al (pyLower o) || pySubstr (pyLower o) al) := by
  induction l with
  | nil => rfl
  | cons o rest ih =>
      by_cases h : (pySubstr al (pyLower o) || pySubstr (pyLower o) al) = true
      · simp [substrMatchFirst, List.find?, h]
      · simp [substrMatchFirst, List.find?, h, ih]

theorem find?_substr_comm (answer : Str) (l : List Str) :
    l.find? (fun o => pySubstr (pyLower o) (pyLower answer)
                   || pySubstr (pyLower answer) (pyLower o))
      = l.find? (fun o => pySubstr (pyLower answer) (pyLower o)
                   || pySubstr (pyLower o) (pyLower answer)) := by
  have hp : (fun (o : Str) => pySubstr (pyLower o) (pyLower answer)
                   || pySubstr (pyLower answer) (pyLower o))
      = (fun o => pySubstr (pyLower answer) (pyLower o)
                   || pySubstr (pyLower o) (pyLower answer)) :=
    funext fun o => Bool.or_comm _ _
  rw [hp]

/-- C3 counterexample: the claim pins `resolve("gibberish", ["A","B"]) = "A"`,
but the code returns `"B"`: the lowercased option `"b"` occurs as a substring
of `"gibberish"`, so the partial-match loop fires before the
fallback-to-first rule. -/
theorem find_best_option_match_gibberish_counterexample :
    find_best_option_match "gibberish".toList ["A".toList, "B".toList]
        = "B".toList
      ∧ "B".toList ≠ "A".toList := by
  exact ⟨by decide, by decide⟩

/-- C3 (amended): `_find_best_option_match` implements exactly the spec's
four-rule priority order (case-insensitive exact match, then first
case-insensitive substring match in either direction in list order, then
first option, then empty for an empty list); the pinned examples hold with
`resolve("gibberish", ["A","B"]) = "B"` (the substring rule fires on `"b"`,
so the fallback-to-first rule is not reached). -/
theorem find_best_option_match_correct :
    (∀ (answer : Str) (options : List Str),
        find_best_option_match answer options = resolveSpec answer options)
    ∧ find_best_option_match "Yes".toList
        ["No".toList, "Yes".toList, "Maybe".toList] = "Yes".toList
    ∧ find_best_option_match "I love Python".toList
        ["Python".toList, "Java".toList] = "Python".toList
    ∧ find_best_option_match "gibberish".toList
        ["A".toList, "B".toList] = "B".toList
    ∧ find_best_option_match "x".toList [] = [] := by
  refine ⟨?_, by decide, by decide, by decide, by decide⟩
  intro answer options
  simp only [find_best_option_match, resolveSpec, exactMatchFirst_eq_find?,
    substrMatchFirst_eq_find?, find?_substr_comm]

/-- C10 counterexample: on the non-empty option list `[""]` the resolver
returns the empty string (Python's `"" in s` is always true, so the empty
option wins the partial-match loop), refuting "the empty string is returned
only when the option list is empty". -/
theorem find_best_option_match_empty_option_counterexample :
    find_best_option_match "x".toList [([] : Str)] = ([] : Str)
      ∧ ([([] : Str)] : List Str) ≠ [] := by
  exact ⟨by decide, by decide⟩

theorem mem_of_exactMatchFirst (al : Str) (l : List Str) (o : Str)
    (h : exactMatchFirst al l = some o) : o ∈ l := by
  rw [exactMatchFirst_eq_find?] at h
  exact List.mem_of_find?_eq_some h

theorem mem_of_substrMatchFirst (al : Str) (l : List Str) (o : Str)
    (h : substrMatchFirst al l = some o) : o ∈ l := by
  rw [substrMatchFirst_eq_find?] at h
  exact List.mem_of_find?_eq_some h

/-- C10 (amended): the resolver returns the empty string whenever the option
list is empty, and for a non-empty option list it always returns an element
of that list (hence the empty string arises for a non-empty list only when
the empty string is itself one of its options). -/
theorem find_best_option_match_mem (answer : Str) (options : List Str) :
    (options = [] → find_best_option_match answer options = [])
    ∧ (options ≠ [] → find_best_option_match answer options ∈ options) := by
  constructor
  · intro h; subst h; rfl
  · intro h
    obtain ⟨a, rest, rfl⟩ := List.exists_cons_of_ne_nil h
    unfold find_best_option_match
    rw [if_neg (by simp)]
    cases he : exactMatchFirst (pyLower answer) (a :: rest) with
    | some o => exact mem_of_exactMatchFirst _ _ _ he
    | none =>
        cases hs : substrMatchFirst (pyLower answer) (a :: rest) with
        | some o => exact mem_of_substrMatchFirst _ _ _ hs
        | none => exact List.mem_cons_self a rest

/-- Witness for C10's amended theorem at concrete inputs. -/
theorem find_best_option_match_mem_witness :
    find_best_option_match "x".toList ["A".toList] ∈ ["A".toList]
      ∧ find_best_option_match "x".toList [] = [] :=
  ⟨(find_best_option_match_mem "x".toList ["A".toList]).2 (by decide),
   (find_best_option_match_mem "x".toList []).1 rfl⟩

end EasyApplyAgent

namespace JobSearch

/-- `JobResult(id_job=..., job_description=...)` as built by
`_extract_jobs_from_page`. -/
structure JobResult where
  id_job : Nat
  job_description : Str
deriving DecidableEq

/-- One rendered listing card, abstracted to the parse of its `h3 a` href
(`none` when the link is absent, the URL has no `/view/` segment, or the id
fails to parse as an integer) and the optional snippet text
(`none` models a missing `.job-search-card__snippet` element). -/
structure Card where
  jobId : Option Nat
  snippet : Option Str
deriving DecidableEq

/-- The next-page button as `find_element` reports it: `is_enabled()` and the
value of `get_attribute("disabled")` (`none` for a missing attribute). -/
structure NextButton where
  enabled : Bool
  disabledAttr : Option Str
deriving DecidableEq

/-- Python truthiness of a `get_attribute` result: `None` and `""` are falsy. -/
def pyTruthy : Option Str → Bool
  | none => false
  | some s => !s.isEmpty

/-- Behaviour of the automation target during one search run: the cards
rendered on each physical results page, the next-page button state per page
(`none` = `NoSuchElementException`), the outcome of the initial navigation's
`try` block, and the outcome of the next-page `try` block when started from
physical page `p` (`some msg` = an exception with that message). -/
structure SearchTarget where
  pages : List (List Card)
  button : Nat → Option NextButton
  initNavErr : Option Str
  navErr : Nat → Option Str

/-- `JobSearchState`, restricted to the fields the graph reads or writes
(`job_title`/`location`/`easy_apply`/`search_url`/`total_found` and the
browser handle are omitted; `phys` is the index of the physical page the
driver currently shows, advanced only by a successful next-page click). -/
structure SState where
  limit : Nat
  current_page : Nat
  phys : Nat
  collected_jobs : List JobResult
  errors : List Str
deriving DecidableEq

/-- A card survives `_extract_jobs_from_page`'s parse: the href parsed to an
id and `if not job_id` did not fire (Python treats the id `0` as falsy). -/
def parseOk (c : Card) : Bool :=
  match c.jobId with
  | some n => decide (n ≠ 0)
  | none => false

/-- The per-card loop of `_extract_jobs_from_page`, accumulating `page_jobs`:
unparseable cards are skipped by `continue`; a parseable card is appended
only while `len(collected_jobs) + len(page_jobs) < limit`. -/
def extractLoop (collected : List JobResult) (limit : Nat) :
    List Card → List JobResult → List JobResult
  | [], acc => acc
  | c :: cs, acc =>
      match c.jobId with
      | none => extractLoop collected limit cs acc
      | some id =>
          if id = 0 then extractLoop collected limit cs acc
          else if collected.length + acc.length < limit then
            extractLoop collected limit cs
              (acc ++ [⟨id, c.snippet.getD "No description available".toList⟩])
          else extractLoop collected limit cs acc

/-- `_extract_jobs_from_page`: run the card loop over the currently rendered
page and append the page's jobs to `collected_jobs`; the `errors` list is
untouched (skipped cards are not errors). -/
def extract_jobs_from_page (t : SearchTarget) (s : SState) : SState :=
  { s with collected_jobs :=
      s.collected_jobs
        ++ extractLoop s.collected_jobs s.limit (t.pages.getD s.phys []) [] }

/-- `_build_search_url`: serializes the query (not part of the modelled
state) and resets `current_page` to 1. -/
def build_search_url (s : SState) : SState := { s with current_page := 1 }

/-- `_navigate_to_search`: on an exception in its `try` block, appends a
message to `errors`; otherwise leaves the state unchanged. -/
def navigate_to_search (t : SearchTarget) (s : SState) : SState :=
  match t.initNavErr with
  | none => s
  | some m =>
      { s with errors := s.errors ++ ["Failed to navigate to search: ".toList ++ m] }

/-- The `errors` value produced by the initial navigation (used to state that
extraction itself contributes no errors). -/
def navInitErrors (t : SearchTarget) : List Str :=
  match t.initNavErr with
  | none => []
  | some m => ["Failed to navigate to search: ".toList ++ m]

/-- `_should_continue_pagination`: `"finish"` once the quota is met or the
page cap (10) is reached; otherwise `"continue"` exactly when the next-page
button is found, enabled, and its `disabled` attribute is falsy. -/
def should_continue_pagination (t : SearchTarget) (s : SState) : Str :=
  if s.collected_jobs.length ≥ s.limit then "finish".toList
  else if s.current_page ≥ 10 then "finish".toList
  else
    match t.button s.phys with
    | some b =>
        if b.enabled && !(pyTruthy b.disabledAttr) then "continue".toList
        else "finish".toList
    | none => "finish".toList

/-- `_navigate_next_page`: a missing button raises inside the `try` block, as
does a failed click or a timeout waiting for the new page's cards — all are
caught and appended to `errors`, leaving every other field unchanged; on
success the driver advances one physical page and `current_page` is
incremented. -/
def navigate_next_page (t : SearchTarget) (s : SState) : SState :=
  match t.button s.phys with
  | none =>
      { s with errors :=
          s.errors ++ ["Failed to navigate to next page: no such element".toList] }
  | some _ =>
      match t.navErr s.phys with
      | none => { s with current_page := s.current_page + 1, phys := s.phys + 1 }
      | some m =>
          { s with errors :=
              s.errors ++ ["Failed to navigate to next page: ".toList ++ m] }

/-- The `check_pagination → (navigate_next_page → extract → check_pagination
| END)` loop of the compiled graph, with explicit fuel: `none` means the loop
has not reached `END` within `fuel` iterations. -/
def searchLoop (t : SearchTarget) : Nat → SState → Option SState
  | 0, s =>
      if should_continue_pagination t s = "continue".toList then none else some s
  | fuel + 1, s =>
      if should_continue_pagination t s = "continue".toList then
        searchLoop t fuel (extract_jobs_from_page t (navigate_next_page t s))
      else some s

/-- The initial `JobSearchState` built by `execute`. -/
def initState (limit : Nat) : SState :=
  { limit := limit, current_page := 1, phys := 0, collected_jobs := [], errors := [] }

/-- The whole compiled graph:
`build_search_url → navigate_to_search → extract_jobs_from_page →
check_pagination → …` (`check_pagination` itself is the identity). -/
def searchRun (t : SearchTarget) (limit fuel : Nat) : Option SState :=
  searchLoop t fuel
    (extract_jobs_from_page t (navigate_to_search t (build_search_url (initState limit))))

/-- Number of parseable cards on a page. -/
def pcount (cards : List Card) : Nat := (cards.filter parseOk).length

/-- Total parseable listings over every page the target can serve. -/
def totalParseable (t : SearchTarget) : Nat := (t.pages.map pcount).sum

/-- The run reaches `END` with some amount of fuel. -/
def searchTerminates (t : SearchTarget) (limit : Nat) : Prop :=
  ∃ fuel s, searchRun t limit fuel = some s

theorem pcount_cons (c : Card) (cs : List Card) :
    pcount (c :: cs) = if parseOk c then pcount cs + 1 else pcount cs := by
  by_cases h : parseOk c
  · simp [pcount, List.filter_cons, h]
  · simp [pcount, List.filter_cons, h]

theorem extractLoop_length (collected : List JobResult) (limit : Nat)
    (cards : List Card) (acc : List JobResult) :
    (extractLoop collected limit cards acc).length
      = acc.length + min (limit - (collected.length + acc.length)) (pcount cards) := by
  induction cards generalizing acc with
  | nil => simp [extractLoop, pcount]
  | cons c cs ih =>
      rw [pcount_cons]
      cases hc : c.jobId with
      | none =>
          have : parseOk c = false := by simp [parseOk, hc]
          simp only [extractLoop, hc, this, if_false]
          exact ih acc
      | some id =>
          by_cases hz : id = 0
          · have : parseOk c = false := by simp [parseOk, hc, hz]
            simp only [extractLoop, hc, this, if_false, hz, if_true]
            exact ih acc
          · have hp : parseOk c = true := by simp [parseOk, hc, hz]
            by_cases hlt : collected.length + acc.length < limit
            · simp only [extractLoop, hc, hz, if_false, hlt, if_true, hp]
              rw [ih]
              simp only [List.length_append, List.length_cons, List.length_nil]
              omega
            · simp only [extractLoop, hc, hz, if_false, hlt, hp, if_true]
              rw [ih]
              omega

theorem extract_length (t : SearchTarget) (s : SState) :
    (extract_jobs_from_page t s).collected_jobs.length
      = s.collected_jobs.length
        + min (s.limit - s.collected_jobs.length) (pcount (t.pages.getD s.phys [])) := by
  simp only [extract_jobs_from_page, List.length_append]
  rw [extractLoop_length]
  simp

theorem extract_le_limit (t : SearchTarget) (s : SState)
    (h : s.collected_jobs.length ≤ s.limit) :
    (extract_jobs_from_page t s).collected_jobs.length ≤ s.limit := by
  rw [extract_length]
  omega

theorem extract_fields (t : SearchTarget) (s : SState) :
    (extract_jobs_from_page t s).limit = s.limit
      ∧ (extract_jobs_from_page t s).current_page = s.current_page
      ∧ (extract_jobs_from_page t s).phys = s.phys
      ∧ (extract_jobs_from_page t s).errors = s.errors :=
  ⟨rfl, rfl, rfl, rfl⟩

theorem navigate_next_page_fields (t : SearchTarget) (s : SState) :
    (navigate_next_page t s).limit = s.limit
      ∧ (navigate_next_page t s).collected_jobs = s.collected_jobs := by
  unfold navigate_next_page
  cases t.button s.phys with
  | none => exact ⟨rfl, rfl⟩
  | some b =>
      cases t.navErr s.phys with
      | none => exact ⟨rfl, rfl⟩
      | some m => exact ⟨rfl, rfl⟩

theorem shouldContinue_eq_continue_iff (t : SearchTarget) (s : SState) :
    should_continue_pagination t s = "continue".toList
      ↔ (s.collected_jobs.length < s.limit ∧ s.current_page < 10
          ∧ ∃ b, t.button s.phys = some b ∧ b.enabled = true
              ∧ pyTruthy b.disabledAttr = false) := by
  unfold should_continue_pagination
  by_cases h1 : s.collected_jobs.length ≥ s.limit
  · simp only [h1, if_true]
    constructor
    · intro h; exact absurd h (by decide)
    · rintro ⟨h, -⟩; omega
  · simp only [h1, if_false]
    by_cases h2 : s.current_page ≥ 10
    · simp only [h2, if_true]
      constructor
      · intro h; exact absurd h (by decide)
      · rintro ⟨-, h, -⟩; omega
    · simp only [h2, if_false]
      cases hb : t.button s.phys with
      | none =>
          constructor
          · intro h; exact absurd h (by decide)
          · rintro ⟨-, -, b, hb', -⟩; exact Option.noConfusion hb'
      | some b =>
          by_cases he : (b.enabled && !pyTruthy b.disabledAttr) = true
          · constructor
            · intro _
              refine ⟨by omega, by omega, b, rfl, ?_, ?_⟩
              · exact (Bool.and_eq_true _ _ ▸ he).1
              · have h3 := (Bool.and_eq_true _ _ ▸ he).2
                simpa using h3
            · intro _
              simp [he]
          · constructor
            · intro h
              change (if (b.enabled && !pyTruthy b.disabledAttr) = true
                  then "continue".toList else "finish".toList) = "continue".toList at h
              rw [if_neg he] at h
              exact absurd h (by decide)
            · rintro ⟨-, -, b', hb', hen, hdis⟩
              injection hb' with hbb
              subst hbb
              exact absurd (by simp [hen, hdis]) he

theorem shouldContinue_cases (t : SearchTarget) (s : SState) :
    should_continue_pagination t s = "continue".toList
      ∨ should_continue_pagination t s = "finish".toList := by
  unfold should_continue_pagination
  by_cases h1 : s.collected_jobs.length ≥ s.limit
  · right; simp [h1]
  · by_cases h2 : s.current_page ≥ 10
    · right; simp [h1, h2]
    · simp only [h1, h2, if_false]
      cases t.button s.phys with
      | none => right; rfl
      | some b =>
          by_cases he : (b.enabled && !pyTruthy b.disabledAttr) = true
          · left; simp [he]
          · right; simp [he]

/-- C4: `_should_continue_pagination` selects `"continue"` iff the collected
count is strictly below `limit`, the page counter is strictly below the hard
cap 10, and the next-page button is found, enabled, and carries no truthy
`disabled` attribute; in every other case it selects `"finish"`. -/
theorem should_continue_pagination_correct (t : SearchTarget) (s : SState) :
    (should_continue_pagination t s = "continue".toList
      ↔ (s.collected_jobs.length < s.limit ∧ s.current_page < 10
          ∧ ∃ b, t.button s.phys = some b ∧ b.enabled = true
              ∧ pyTruthy b.disabledAttr = false))
    ∧ (should_continue_pagination t s ≠ "continue".toList
        → should_continue_pagination t s = "finish".toList) := by
  refine ⟨shouldContinue_eq_continue_iff t s, ?_⟩
  intro h
  rcases shouldContinue_cases t s with h' | h'
  · exact absurd h' h
  · exact h'

/-- Witness for C4 at a concrete state: quota met, so the predicate
finishes. -/
theorem should_continue_pagination_correct_witness :
    should_continue_pagination
      { pages := [], button := fun _ => none, initNavErr := none,
        navErr := fun _ => none }
      { limit := 0, current_page := 1, phys := 0, collected_jobs := [],
        errors := [] } = "finish".toList :=
  (should_continue_pagination_correct
      { pages := [], button := fun _ => none, initNavErr := none,
        navErr := fun _ => none }
      { limit := 0, current_page := 1, phys := 0, collected_jobs := [],
        errors := [] }).2 (by decide)

theorem searchLoop_inv (t : SearchTarget) :
    ∀ (fuel : Nat) (s r : SState), searchLoop t fuel s = some r →
      r.limit = s.limit
        ∧ (s.collected_jobs.length ≤ s.limit → r.collected_jobs.length ≤ s.limit) := by
  intro fuel
  induction fuel with
  | zero =>
      intro s r h
      by_cases hc : should_continue_pagination t s = "continue".toList
      · rw [searchLoop, if_pos hc] at h; cases h
      · rw [searchLoop, if_neg hc] at h
        injection h with h
        subst h
        exact ⟨rfl, fun h => h⟩
  | succ f ih =>
      intro s r h
      by_cases hc : should_continue_pagination t s = "continue".toList
      · rw [searchLoop, if_pos hc] at h
        have hnav := navigate_next_page_fields t s
        have hlim : (extract_jobs_from_page t (navigate_next_page t s)).limit
            = s.limit := by
          rw [(extract_fields t _).1, hnav.1]
        obtain ⟨h1, h2⟩ := ih _ r h
        refine ⟨h1.trans hlim, fun hle => ?_⟩
        have hle' : (extract_jobs_from_page t (navigate_next_page t s)).collected_jobs.length
            ≤ (extract_jobs_from_page t (navigate_next_page t s)).limit := by
          rw [extract_length, hnav.1, hnav.2]
          omega
        rw [hlim] at hle'
        have := h2 (by rw [hlim]; exact hle')
        rw [hlim] at this
        exact this
      · rw [searchLoop, if_neg hc] at h
        injection h with h
        subst h
        exact ⟨rfl, fun h => h⟩

theorem searchLoop_finish (t : SearchTarget) (s : SState)
    (h : should_continue_pagination t s ≠ "continue".toList) (fuel : Nat) :
    searchLoop t fuel s = some s := by
  cases fuel with
  | zero => rw [searchLoop, if_neg h]
  | succ f => rw [searchLoop, if_neg h]

theorem shouldContinue_of_quota (t : SearchTarget) (s : SState)
    (h : s.limit ≤ s.collected_jobs.length) :
    should_continue_pagination t s = "finish".toList := by
  unfold should_continue_pagination
  rw [if_pos h]

theorem navInit_state (t : SearchTarget) (limit : Nat) :
    navigate_to_search t (build_search_url (initState limit))
      = { limit := limit, current_page := 1, phys := 0, collected_jobs := [],
          errors := navInitErrors t } := by
  unfold navigate_to_search navInitErrors build_search_url initState
  cases t.initNavErr <;> rfl

theorem pcount_le_total (t : SearchTarget) :
    pcount (t.pages.getD 0 []) ≤ totalParseable t := by
  cases hp : t.pages with
  | nil => simp [List.getD, totalParseable, hp, pcount]
  | cons p ps =>
      simp only [totalParseable, hp, List.map_cons, List.sum_cons, List.getD]
      simp only [List.get?]
      exact Nat.le_add_right _ _

/-- C1: the collected-jobs list never exceeds `limit` on any run; and on any
run whose first results page renders at least `limit` parseable listings, the
run terminates at once with exactly `min(limit, total available parseable
listings)` results — extraction stops appending mid-page at the quota, and
the skipped unparseable cards contribute no errors (the final `errors` are
exactly those of the initial navigation). -/
theorem search_limit_correct (t : SearchTarget) (limit fuel : Nat) :
    (∀ s, searchRun t limit fuel = some s → s.collected_jobs.length ≤ limit)
    ∧ (limit ≤ pcount (t.pages.getD 0 []) →
        ∃ s, searchRun t limit fuel = some s
          ∧ s.collected_jobs.length = min limit (totalParseable t)
          ∧ s.errors = navInitErrors t) := by
  have hinit := navInit_state t limit
  constructor
  · intro s h
    unfold searchRun at h
    rw [hinit] at h
    have hle : (extract_jobs_from_page t
        { limit := limit, current_page := 1, phys := 0, collected_jobs := [],
          errors := navInitErrors t }).collected_jobs.length ≤ limit := by
      rw [extract_length]
      simp only [List.length_nil]
      omega
    obtain ⟨h1, h2⟩ := searchLoop_inv t fuel _ s h
    exact h2 hle
  · intro hp
    unfold searchRun
    rw [hinit]
    set s0 := extract_jobs_from_page t
      { limit := limit, current_page := 1, phys := 0, collected_jobs := [],
        errors := navInitErrors t } with hs0
    have hlen : s0.collected_jobs.length = limit := by
      rw [hs0, extract_length]
      simp only [List.length_nil]
      omega
    have hfin : should_continue_pagination t s0 ≠ "continue".toList := by
      rw [shouldContinue_of_quota t s0 (by rw [hlen]; exact Nat.le_of_eq rfl)]
      decide
    refine ⟨s0, searchLoop_finish t s0 hfin fuel, ?_, rfl⟩
    rw [hlen]
    have := pcount_le_total t
    omega

/-- Witness target for C1: one page with three parseable listings. -/
def sampleTarget : SearchTarget :=
  { pages := [[{ jobId := some 11, snippet := none },
               { jobId := some 12, snippet := none },
               { jobId := some 13, snippet := none }]],
    button := fun _ => none, initNavErr := none, navErr := fun _ => none }

/-- Witness for C1: with limit 2 against a page of 3 parseable listings, the
run returns exactly `min 2 3 = 2` results and no errors. -/
theorem search_limit_correct_witness :
    ∃ s, searchRun sampleTarget 2 0 = some s
      ∧ s.collected_jobs.length = min 2 (totalParseable sampleTarget)
      ∧ s.errors = navInitErrors sampleTarget :=
  (search_limit_correct sampleTarget 2 0).2 (by decide)

/-- A target whose next-page button is always rendered enabled but whose
next-page click always fails, with no parseable listings: the loop spins
forever. -/
def endlessTarget : SearchTarget :=
  { pages := [],
    button := fun _ => some { enabled := true, disabledAttr := none },
    initNavErr := some "timeout".toList,
    navErr := fun _ => some "click timeout".toList }

theorem endless_loop_none (fuel : Nat) :
    ∀ s : SState, s.limit = 5 → s.collected_jobs = [] → s.current_page = 1 →
      searchLoop endlessTarget fuel s = none := by
  induction fuel with
  | zero =>
      intro s h1 h2 h3
      have hc : should_continue_pagination endlessTarget s = "continue".toList :=
        (shouldContinue_eq_continue_iff endlessTarget s).2
          ⟨by rw [h1, h2]; decide, by omega,
           ⟨{ enabled := true, disabledAttr := none }, rfl, rfl, rfl⟩⟩
      rw [searchLoop, if_pos hc]
  | succ f ih =>
      intro s h1 h2 h3
      have hc : should_continue_pagination endlessTarget s = "continue".toList :=
        (shouldContinue_eq_continue_iff endlessTarget s).2
          ⟨by rw [h1, h2]; decide, by omega,
           ⟨{ enabled := true, disabledAttr := none }, rfl, rfl, rfl⟩⟩
      rw [searchLoop, if_pos hc]
      apply ih
      · exact h1
      · show s.collected_jobs ++ _ = []
        rw [h2]; rfl
      · exact h3

/-- C5 counterexample: against `endlessTarget` — a behaviour of the
automation target in which the next-page control never reports disabled, the
next-page click always fails, and no listing parses — the search run with
limit 5 never reaches the terminal marker, however much fuel it is given:
the pagination loop is not finite for every behaviour of the target. -/
theorem search_nontermination_counterexample :
    ¬ searchTerminates endlessTarget 5 := by
  rintro ⟨fuel, s, h⟩
  unfold searchRun at h
  rw [endless_loop_none fuel _ rfl rfl rfl] at h
  cases h

theorem searchLoop_page_cap (t : SearchTarget) (hnav : ∀ p, t.navErr p = none) :
    ∀ (fuel : Nat) (s : SState), s.current_page ≤ 10 →
      10 ≤ s.current_page + fuel →
      ∃ r, searchLoop t fuel s = some r ∧ r.current_page ≤ 10 := by
  intro fuel
  induction fuel with
  | zero =>
      intro s h1 h2
      by_cases hc : should_continue_pagination t s = "continue".toList
      · obtain ⟨-, hpage, -⟩ := (shouldContinue_eq_continue_iff t s).1 hc
        omega
      · exact ⟨s, by rw [searchLoop, if_neg hc], h1⟩
  | succ f ih =>
      intro s h1 h2
      by_cases hc : should_continue_pagination t s = "continue".toList
      · obtain ⟨-, hpage, b, hb, -, -⟩ := (shouldContinue_eq_continue_iff t s).1 hc
        have hnn : navigate_next_page t s
            = { s with current_page := s.current_page + 1, phys := s.phys + 1 } := by
          unfold navigate_next_page
          rw [hb, hnav s.phys]
        have hpage' : (extract_jobs_from_page t (navigate_next_page t s)).current_page
            = s.current_page + 1 := by
          rw [(extract_fields t _).2.1, hnn]
        obtain ⟨r, hr, hr10⟩ := ih (extract_jobs_from_page t (navigate_next_page t s))
          (by omega) (by omega)
        exact ⟨r, by rw [searchLoop, if_pos hc]; exact hr, hr10⟩
      · exact ⟨s, by rw [searchLoop, if_neg hc], h1⟩

/-- C5 (amended): every search run in which each next-page navigation action
succeeds terminates — fuel 9 always suffices — and processes at most 10
pages (`current_page ≤ 10` at the terminal marker), for any next-page-button
behaviour, including a control that never reports disabled. -/
theorem search_terminates_within_cap (t : SearchTarget) (limit : Nat)
    (hnav : ∀ p, t.navErr p = none) :
    searchTerminates t limit
      ∧ ∃ s, searchRun t limit 9 = some s ∧ s.current_page ≤ 10 := by
  have hinit := navInit_state t limit
  have hpage : (extract_jobs_from_page t
      (navigate_to_search t (build_search_url (initState limit)))).current_page = 1 := by
    rw [(extract_fields t _).2.1, hinit]
  obtain ⟨r, hr, h10⟩ := searchLoop_page_cap t hnav 9
    (extract_jobs_from_page t (navigate_to_search t (build_search_url (initState limit))))
    (by rw [hpage]; omega) (by rw [hpage])
  exact ⟨⟨9, r, hr⟩, r, hr, h10⟩

/-- Witness target for C5's amended theorem: no pages, no button, all
navigations succeed. -/
def idleTarget : SearchTarget :=
  { pages := [], button := fun _ => none, initNavErr := none,
    navErr := fun _ => none }

/-- Witness for C5's amended theorem at a concrete target. -/
theorem search_terminates_within_cap_witness : searchTerminates idleTarget 3 :=
  (search_terminates_within_cap idleTarget 3 (fun _ => rfl)).1

/-- A target whose next-page button is rendered enabled but whose click
fails. -/
def navFailTarget : SearchTarget :=
  { pages := [],
    button := fun _ => some { enabled := true, disabledAttr := none },
    initNavErr := none,
    navErr := fun _ => some "click intercepted".toList }

/-- A mid-run state: nothing collected yet out of a quota of 5, on page 1. -/
def navFailState : SState :=
  { limit := 5, current_page := 1, phys := 0, collected_jobs := [], errors := [] }

/-- C6 counterexample: after a failed next-page navigation the failure is
appended to `errors` and the page counter is unchanged, but on the next
evaluation pass the continuation predicate still selects `"continue"` (it
never consults `errors`): the loop does iterate again after a failed page
navigation. -/
theorem navigate_next_page_failure_counterexample :
    (navigate_next_page navFailTarget navFailState).errors
        = ["Failed to navigate to next page: click intercepted".toList]
      ∧ (navigate_next_page navFailTarget navFailState).current_page = 1
      ∧ should_continue_pagination navFailTarget
          (extract_jobs_from_page navFailTarget
            (navigate_next_page navFailTarget navFailState))
          = "continue".toList := by
  refine ⟨by decide, rfl, by decide⟩

/-- C6 (amended): when next-page navigation fails the failure message is
appended to `errors` and the page counter and collected jobs are unchanged;
but the continuation predicate does not consult the errors list — its
verdict on any state is unchanged under any substitution of `errors` — so it
selects `"finish"` afterwards only if the quota, page-cap or button condition
independently fails. -/
theorem navigate_next_page_failure (t : SearchTarget) (s : SState) (m : Str)
    (hb : t.button s.phys ≠ none) (hf : t.navErr s.phys = some m) :
    (navigate_next_page t s).errors
        = s.errors ++ ["Failed to navigate to next page: ".toList ++ m]
      ∧ (navigate_next_page t s).current_page = s.current_page
      ∧ (navigate_next_page t s).collected_jobs = s.collected_jobs
      ∧ ∀ e, should_continue_pagination t { s with errors := e }
          = should_continue_pagination t s := by
  obtain ⟨b, hb'⟩ := Option.ne_none_iff_exists'.1 hb
  unfold navigate_next_page
  rw [hb', hf]
  exact ⟨rfl, rfl, rfl, fun e => rfl⟩

/-- Witness for C6's amended theorem at a concrete target and state. -/
theorem navigate_next_page_failure_witness :
    (navigate_next_page navFailTarget navFailState).errors
        = navFailState.errors
            ++ ["Failed to navigate to next page: ".toList ++ "click intercepted".toList]
      ∧ (navigate_next_page navFailTarget navFailState).current_page
          = navFailState.current_page
      ∧ (navigate_next_page navFailTarget navFailState).collected_jobs
          = navFailState.collected_jobs
      ∧ ∀ e, should_continue_pagination navFailTarget { navFailState with errors := e }
          = should_continue_pagination navFailTarget navFailState :=
  navigate_next_page_failure navFailTarget navFailState
    "click intercepted".toList (by decide) rfl

end JobSearch

namespace EasyApplyAgent

/-- The fields of `EasyApplyState` that `submit_application_node` reads or
writes (the browser handle, CV analysis and form data are untouched by it). -/
structure EasyApplyState where
  job_id : Nat
  success : Bool
  error : Str
  current_step : Str
deriving DecidableEq

/-- Behaviour of the automation target during `submit_application_node`:
whether each of the five submit-button selectors resolves (in order), the
exception message of the click/delay if one is raised, and whether one of the
three confirmation signals appears within the bounded wait. -/
structure SubmitTarget where
  selectorFinds : List Bool
  clickErr : Option Str
  confirmed : Bool

/-- `submit_application_node` from `easy_apply_agent.py`: ordered-fallback
search for the submit button (the loop keeps the first selector that
resolves, so a button is held iff some selector finds one); a missing button
is a failure; a raised click is caught by the outer `except` as a failure;
after a successful click, a confirmation timeout yields `success=True` with
the warning recorded in `error`, and an observed confirmation yields plain
success. -/
def submit_application_node (t : SubmitTarget) (s : EasyApplyState) : EasyApplyState :=
  if t.selectorFinds.any id = false then
    { s with
      success := false, error := "Submit button not found".toList,
      current_step := "submit_button_not_found".toList }
  else
    match t.clickErr with
    | some e =>
        { s with
          success := false,
          error := "Failed to submit application: ".toList ++ e,
          current_step := "application_submit_failed".toList }
    | none =>
        if t.confirmed then
          { s with success := true, current_step := "application_submitted".toList }
        else
          { s with
            success := true,
            current_step := "application_submitted_no_confirmation".toList,
            error := "Application submitted but confirmation not detected".toList }

/-- C7: when the submit button is found and clicked but no confirmation
signal is observed within the bounded wait, the step returns `success=true`
with the warning recorded in the error field — a confirmation timeout after
a successful click is never reported as `success=false`. -/
theorem submit_confirmation_timeout_is_success (t : SubmitTarget)
    (s : EasyApplyState) (hfind : t.selectorFinds.any id = true)
    (hclick : t.clickErr = none) (hconf : t.confirmed = false) :
    (submit_application_node t s).success = true
      ∧ (submit_application_node t s).error
          = "Application submitted but confirmation not detected".toList
      ∧ (submit_application_node t s).current_step
          = "application_submitted_no_confirmation".toList := by
  unfold submit_application_node
  rw [hclick, hconf, hfind]
  exact ⟨rfl, rfl, rfl⟩

/-- Witness for C7 at a concrete target and state: the second selector finds
the button, the click succeeds, no confirmation appears. -/
theorem submit_confirmation_timeout_is_success_witness :
    (submit_application_node
        { selectorFinds := [false, true, false, false, false],
          clickErr := none, confirmed := false }
        { job_id := 7, success := false, error := [],
          current_step := "form_filled".toList }).success = true :=
  (submit_confirmation_timeout_is_success
      { selectorFinds := [false, true, false, false, false],
        clickErr := none, confirmed := false }
      { job_id := 7, success := false, error := [],
        current_step := "form_filled".toList }
      (by decide) rfl rfl).1

end EasyApplyAgent

namespace JobApplicationGraph

/-- `ApplicationRequest` from `model/types.py`. -/
structure ApplicationRequest where
  job_id : Nat
  monthly_salary : Nat
deriving DecidableEq

/-- The keys of the final Easy-Apply state that `apply_to_job` reads. -/
structure EasyFinal where
  success : Bool
  error : Str
  form_answers : List (Str × Str)
  current_step : Str

/-- The per-application result dict: `apply_to_job`'s dict always carries
`form_answers` and `current_step`; the `error_result` dict built in
`_process_application` lacks those keys (`none`). -/
structure ResultDict where
  job_id : Nat
  success : Bool
  error : Str
  form_answers : Option (List (Str × Str))
  current_step : Option Str

/-- `EasyApplyAgent.apply_to_job`: invokes the compiled Easy-Apply graph
(outcome `g`) and always returns a dict tagged with the given `job_id`; an
exception from the workflow is caught and converted into a failure dict. -/
def apply_to_job (jobId : Nat) (g : Except Str EasyFinal) : ResultDict :=
  match g with
  | .ok f =>
      { job_id := jobId, success := f.success, error := f.error,
        form_answers := some f.form_answers, current_step := some f.current_step }
  | .error e =>
      { job_id := jobId, success := false,
        error := "EasyApply workflow failed: ".toList ++ e,
        form_answers := some [], current_step := some "workflow_failed".toList }

/-- What happens when `_process_application` calls the agent on one item:
either the call itself raises (caught by `_process_application`'s `except`)
or `apply_to_job` runs with some graph outcome. -/
inductive ItemOutcome where
  | raised : Str → ItemOutcome
  | ran : Except Str EasyFinal → ItemOutcome

/-- The result appended by `_process_application` for one item: the
`error_result` dict on a raised call, otherwise `apply_to_job`'s dict. -/
def itemResult (req : ApplicationRequest) : ItemOutcome → ResultDict
  | .raised m =>
      { job_id := req.job_id, success := false,
        error := "Application processing failed: ".toList ++ m,
        form_answers := none, current_step := none }
  | .ran g => apply_to_job req.job_id g

/-- The `select_next_application → (process_application → record_result)*`
loop of the compiled graph: `_has_more_applications` continues while
`current_application_index < len(applications)`; `_process_application`
appends one result for `applications[index]`; `_record_result` increments
the index. -/
def appLoop (outcome : Nat → ItemOutcome) (apps : List ApplicationRequest)
    (i : Nat) (acc : List ResultDict) : List ResultDict :=
  if h : i < apps.length then
    appLoop outcome apps (i + 1) (acc ++ [itemResult (apps.get ⟨i, h⟩) (outcome i)])
  else acc
termination_by apps.length - i

/-- `JobApplicationGraph.execute`: `_initialize_agent` starts the index at 0
with an empty result list; the loop runs to exhaustion and
`application_results` is returned. -/
def executeApplications (outcome : Nat → ItemOutcome)
    (apps : List ApplicationRequest) : List ResultDict :=
  appLoop outcome apps 0 []

/-- Proof-side description of the loop's output from position `i` on. -/
def expectedFrom (outcome : Nat → ItemOutcome) :
    List ApplicationRequest → Nat → List ResultDict
  | [], _ => []
  | req :: rest, i => itemResult req (outcome i) :: expectedFrom outcome rest (i + 1)

theorem itemResult_job_id (req : ApplicationRequest) (o : ItemOutcome) :
    (itemResult req o).job_id = req.job_id := by
  cases o with
  | raised m => rfl
  | ran g => cases g <;> rfl

theorem appLoop_spec (outcome : Nat → ItemOutcome) (apps : List ApplicationRequest) :
    ∀ (l : List ApplicationRequest) (i : Nat) (acc : List ResultDict),
      apps.drop i = l → appLoop outcome apps i acc = acc ++ expectedFrom outcome l i := by
  intro l
  induction l with
  | nil =>
      intro i acc h
      have hge : apps.length ≤ i := by
        by_contra hlt
        push_neg at hlt
        have := List.drop_eq_get_cons hlt
        rw [h] at this
        cases this
      rw [appLoop, dif_neg (by omega)]
      simp [expectedFrom]
  | cons req rest ih =>
      intro i acc h
      have hlt : i < apps.length := by
        by_contra hge
        push_neg at hge
        rw [List.drop_eq_nil_of_le hge] at h
        cases h
      have hcons := List.drop_eq_get_cons hlt
      rw [h] at hcons
      injection hcons with h1 h2
      rw [appLoop, dif_pos hlt]
      rw [ih (i + 1) _ h2.symm]
      rw [expectedFrom, ← h1]
      simp

theorem expectedFrom_length (outcome : Nat → ItemOutcome)
    (l : List ApplicationRequest) : ∀ i, (expectedFrom outcome l i).length = l.length := by
  induction l with
  | nil => intro i; rfl
  | cons req rest ih => intro i; simp [expectedFrom, ih]

theorem expectedFrom_job_ids (outcome : Nat → ItemOutcome)
    (l : List ApplicationRequest) :
    ∀ i, (expectedFrom outcome l i).map (fun r => r.job_id)
      = l.map (fun a => a.job_id) := by
  induction l with
  | nil => intro i; rfl
  | cons req rest ih =>
      intro i
      simp [expectedFrom, ih, itemResult_job_id]

/-- C2: for every list of N application requests and every behaviour of the
per-item agent (including raised exceptions and failed sub-workflows), the
application pipeline returns exactly N results whose job identifiers are,
in order, those of the requests; a failing item always yields an emitted
result with `success=false` and a non-empty error message. -/
theorem apply_results_match (outcome : Nat → ItemOutcome)
    (apps : List ApplicationRequest) :
    (executeApplications outcome apps).length = apps.length
    ∧ (executeApplications outcome apps).map (fun r => r.job_id)
        = apps.map (fun a => a.job_id)
    ∧ (∀ req m, (itemResult req (ItemOutcome.raised m)).success = false
        ∧ (itemResult req (ItemOutcome.raised m)).error ≠ [])
    ∧ (∀ req e, (itemResult req (ItemOutcome.ran (Except.error e))).success = false
        ∧ (itemResult req (ItemOutcome.ran (Except.error e))).error ≠ []) := by
  have hspec := appLoop_spec outcome apps apps 0 [] rfl
  unfold executeApplications
  rw [hspec]
  simp only [List.nil_append]
  refine ⟨expectedFrom_length outcome apps 0, expectedFrom_job_ids outcome apps 0, ?_, ?_⟩
  · intro req m
    refine ⟨rfl, ?_⟩
    intro hnil
    have h1 : (itemResult req (ItemOutcome.raised m)).error
        = "Application processing failed: ".toList ++ m := rfl
    rw [h1, List.append_eq_nil] at hnil
    exact absurd hnil.1 (by decide)
  · intro req e
    refine ⟨rfl, ?_⟩
    intro hnil
    have h1 : (itemResult req (ItemOutcome.ran (Except.error e))).error
        = "EasyApply workflow failed: ".toList ++ e := rfl
    rw [h1, List.append_eq_nil] at hnil
    exact absurd hnil.1 (by decide)

end JobApplicationGraph

namespace LinkedInAuthGraph

/-- The observable state of the browser session during authentication: the
current URL and which user-visible actions have taken effect. A step whose
action "takes effect successfully" is one that changes this world. -/
structure AuthWorld where
  url : Str
  navigated : Bool
  emailTyped : Bool
  passwordTyped : Bool
  signInClicked : Bool
deriving DecidableEq

/-- `AuthState` (`model/types.py`) with the browser handle replaced by the
modelled world: email, password, `authenticated` flag and `error` string. -/
structure AuthState where
  email : Str
  password : Str
  authenticated : Bool
  error : Str
  world : AuthWorld
deriving DecidableEq

/-- Behaviour of the automation target during one authentication run:
whether `driver.get` raises, which login-form elements are present on the
loaded page (a never-navigated browser shows `about:blank`, which has no
elements, so lookups are additionally gated on `navigated`), and the URL the
session shows after the sign-in click settles. -/
structure AuthTarget where
  navErr : Option Str
  emailFieldPresent : Bool
  passwordFieldPresent : Bool
  signInPresent : Bool
  postLoginUrl : Str

/-- The URL `_navigate_to_login` opens. -/
def jobsUrl : Str := "https://www.linkedin.com/jobs/".toList

/-- `_navigate_to_login`: `driver.get` of the jobs page; an exception is
caught and recorded in `error`, leaving the world unchanged. -/
def navigate_to_login (t : AuthTarget) (s : AuthState) : AuthState :=
  match t.navErr with
  | none => { s with world := { s.world with url := jobsUrl, navigated := true } }
  | some m => { s with error := "Failed to navigate to LinkedIn: ".toList ++ m }

/-- `_fill_credentials`: waits for the email field, types, then waits for the
password field and types; a `TimeoutException` at either wait records the
login-form-not-found error (after possibly having typed the email). -/
def fill_credentials (t : AuthTarget) (s : AuthState) : AuthState :=
  if s.world.navigated && t.emailFieldPresent then
    if t.passwordFieldPresent then
      { s with world := { s.world with emailTyped := true, passwordTyped := true } }
    else
      { s with
        world := { s.world with emailTyped := true },
        error := "Login form not found - page structure may have changed".toList }
  else
    { s with error := "Login form not found - page structure may have changed".toList }

/-- `_submit_login`: waits for the sign-in button and clicks it (the session
then moves to the target's post-login URL); a timeout records the
button-not-found error. -/
def submit_login (t : AuthTarget) (s : AuthState) : AuthState :=
  if s.world.navigated && t.signInPresent then
    { s with world := { s.world with signInClicked := true, url := t.postLoginUrl } }
  else
    { s with error := "Sign In button not found".toList }

/-- `_verify_authentication`: authenticated iff the current URL contains
`/jobs/` and does not contain `/login` (Python's `in` on strings). -/
def verify_authentication (s : AuthState) : AuthState :=
  if pySubstr "/jobs/".toList s.world.url && !pySubstr "/login".toList s.world.url then
    { s with authenticated := true }
  else
    { s with
      authenticated := false,
      error := "Login failed - still on login page".toList }

/-- The initial `AuthState` built by `execute`, over a fresh browser. -/
def authInit (email password : Str) : AuthState :=
  { email := email, password := password, authenticated := false, error := [],
    world := { url := "about:blank".toList, navigated := false,
               emailTyped := false, passwordTyped := false, signInClicked := false } }

/-- `LinkedInAuthGraph.execute`: the linear
`navigate_to_login → fill_credentials → submit_login → verify_authentication`
graph. -/
def authExecute (t : AuthTarget) (email password : Str) : AuthState :=
  verify_authentication (submit_login t
    (fill_credentials t (navigate_to_login t (authInit email password))))

/-- C8: if the navigate-to-login step fails, it records the failure in the
state's error field; the run nevertheless continues through the remaining
steps to verify (the final state is, by the graph's wiring, the composition
of all four steps), and the final state reports `authenticated=false`. -/
theorem auth_nav_failure (t : AuthTarget) (email password m : Str)
    (h : t.navErr = some m) :
    (navigate_to_login t (authInit email password)).error
        = "Failed to navigate to LinkedIn: ".toList ++ m
      ∧ authExecute t email password
          = verify_authentication (submit_login t
              (fill_credentials t (navigate_to_login t (authInit email password))))
      ∧ (authExecute t email password).authenticated = false := by
  have h1 : navigate_to_login t (authInit email password)
      = { authInit email password with
          error := "Failed to navigate to LinkedIn: ".toList ++ m } := by
    unfold navigate_to_login
    rw [h]
  refine ⟨by rw [h1], rfl, ?_⟩
  unfold authExecute
  rw [h1]
  rfl

/-- Witness target for C8: navigation raises; every element would otherwise
be present. -/
def navFailAuthTarget : AuthTarget :=
  { navErr := some "net timeout".toList, emailFieldPresent := true,
    passwordFieldPresent := true, signInPresent := true, postLoginUrl := jobsUrl }

/-- Witness for C8 at a concrete target. -/
theorem auth_nav_failure_witness :
    (navigate_to_login navFailAuthTarget (authInit "u".toList "p".toList)).error
        = "Failed to navigate to LinkedIn: ".toList ++ "net timeout".toList
      ∧ authExecute navFailAuthTarget "u".toList "p".toList
          = verify_authentication (submit_login navFailAuthTarget
              (fill_credentials navFailAuthTarget
                (navigate_to_login navFailAuthTarget (authInit "u".toList "p".toList))))
      ∧ (authExecute navFailAuthTarget "u".toList "p".toList).authenticated = false :=
  auth_nav_failure navFailAuthTarget "u".toList "p".toList "net timeout".toList rfl

/-- C9's invariant as a proposition over the authentication pipeline,
instantiated at the fill-credentials → submit-login pair: whenever
fill-credentials has set `error`, the submit step performs no successful
transition (its action leaves the world unchanged). -/
def errorHaltsLaterSteps : Prop :=
  ∀ (t : AuthTarget) (email password : Str),
    (fill_credentials t (navigate_to_login t (authInit email password))).error ≠ [] →
      (submit_login t (fill_credentials t
          (navigate_to_login t (authInit email password)))).world
        = (fill_credentials t (navigate_to_login t (authInit email password))).world

/-- A target on which navigation succeeds, the email field is missing (so
fill-credentials sets `error`), but the sign-in button is present. -/
def missingEmailTarget : AuthTarget :=
  { navErr := none, emailFieldPresent := false, passwordFieldPresent := true,
    signInPresent := true, postLoginUrl := "https://www.linkedin.com/feed/".toList }

/-- C9 counterexample: steps never consult the error field. On
`missingEmailTarget`, fill-credentials sets `error` (login form not found),
yet the subsequent submit step still succeeds — it clicks the sign-in button
and changes the session's world — refuting the claimed invariant. -/
theorem error_halts_counterexample : ¬ errorHaltsLaterSteps := by
  intro h
  have h2 := h missingEmailTarget "e".toList "p".toList (by decide)
  exact absurd h2 (by decide)

/-- C9 (amended): once a step sets `error` the run is not aborted — the
remaining steps all execute and the terminal verify step still completes its
bookkeeping — but no step consults the error field: each later step's world
effect and the verify verdict are identical under any value of `error`, so a
later step may still perform a successful transition. -/
theorem error_not_consulted (t : AuthTarget) (s : AuthState) (m : Str) :
    (fill_credentials t { s with error := m }).world = (fill_credentials t s).world
      ∧ (submit_login t { s with error := m }).world = (submit_login t s).world
      ∧ (verify_authentication { s with error := m }).authenticated
          = (verify_authentication s).authenticated := by
  refine ⟨?_, ?_, ?_⟩
  · simp only [fill_credentials]
    split_ifs <;> rfl
  · simp only [submit_login]
    split_ifs <;> rfl
  · simp only [verify_authentication]
    split_ifs <;> rfl

end LinkedInAuthGraph

end JobApplier
